import Mathlib

/-!
Verification of the smiledental mobile client's documented behaviour.

The repository is a React Native client; the definitions below are a shallow
embedding of its relevant operations:

* `filterJobs` and `applyToJob` from `src/frontend/components/JobsScreen.tsx`;
* `buildJobData` (the `onSubmit` request transform), the `useForm` default
  values and the `hourly_rate` validation rule from
  `src/frontend/app/components/JobPostingScreen.tsx`;
* `authOnSubmit` from the `AuthScreen` component (`src/unnamed/part_000`);
* `checkAuthStatus` from the root `Index` component.

JavaScript built-ins used by that code (`parseFloat`, `parseInt`, string
truthiness, `||` defaulting, `toLowerCase`/`includes`) are modelled by the
`js`-named helpers; asynchronous HTTP calls are modelled by passing the
response of each endpoint in explicitly and recording the requests the
operation issues as a trace.
-/

/-- JavaScript truthiness of a possibly-undefined string:
`undefined` and `""` are falsy, every other string is truthy. -/
def jsTruthyOpt : Option String → Bool
  | none => false
  | some s => s ≠ ""

/-- The `x || fallback` defaulting pattern applied to an optional string
(`error.response?.data?.detail || fallback`): the fallback is used when the
value is absent or the empty string. -/
def jsOrFallback (value : Option String) (fallback : String) : String :=
  match value with
  | some s => if s = "" then fallback else s
  | none => fallback

/-- `String.prototype.toLowerCase`, as a character list. -/
def lowerChars (s : String) : List Char :=
  s.data.map Char.toLower

/-- `haystack.includes(needle)` on character lists: `hasSub needle haystack`
is true iff `needle` occurs contiguously in `haystack`. -/
def hasSub (needle : List Char) : List Char → Bool
  | [] => needle.isEmpty
  | c :: rest => needle.isPrefixOf (c :: rest) || hasSub needle rest

/-- Digits accumulated left to right into a natural number. -/
def digitsToNat (ds : List Nat) : Nat :=
  ds.foldl (fun acc d => acc * 10 + d) 0

/-- Consume a maximal run of decimal digits, returning their values and the
remaining characters. -/
def takeDigits : List Char → List Nat × List Char
  | [] => ([], [])
  | c :: rest =>
    if c.isDigit then
      let (ds, r) := takeDigits rest
      ((c.toNat - 48) :: ds, r)
    else ([], c :: rest)

/-- Consume an optional leading sign, returning `-1` or `1` and the rest. -/
def parseSign : List Char → Int × List Char
  | '-' :: rest => (-1, rest)
  | '+' :: rest => (1, rest)
  | rest => (1, rest)

/-- Model of JavaScript `parseFloat` over decimal literals: skip leading
whitespace, read an optional sign, integer digits, an optional fraction and
an optional exponent, ignoring any trailing garbage; `none` models `NaN`
(no digit could be read).  The special `Infinity` literals are outside the
modelled domain (the numeric-keyboard inputs of this app). -/
def jsParseFloat (s : String) : Option ℚ :=
  let cs := s.data.dropWhile Char.isWhitespace
  let (sign, cs) := parseSign cs
  let (ints, cs) := takeDigits cs
  let (fracs, cs) :=
    match cs with
    | '.' :: r => takeDigits r
    | _ => ([], cs)
  if ints.isEmpty && fracs.isEmpty then
    none
  else
    let (esign, eds) :=
      match cs with
      | 'e' :: r => let (s2, r2) := parseSign r; (s2, (takeDigits r2).1)
      | 'E' :: r => let (s2, r2) := parseSign r; (s2, (takeDigits r2).1)
      | _ => ((1 : Int), ([] : List Nat))
    let mant : ℚ :=
      (sign : ℚ) *
        ((digitsToNat ints : ℚ) + (digitsToNat fracs : ℚ) / (10 : ℚ) ^ fracs.length)
    some (if esign < 0 then mant / (10 : ℚ) ^ digitsToNat eds
          else mant * (10 : ℚ) ^ digitsToNat eds)

/-- Model of JavaScript `parseInt` over decimal literals: skip leading
whitespace, read an optional sign and a maximal digit run, ignoring trailing
garbage; `none` models `NaN`. -/
def jsParseInt (s : String) : Option Int :=
  let cs := s.data.dropWhile Char.isWhitespace
  let (sign, cs) := parseSign cs
  let (ds, _) := takeDigits cs
  if ds.isEmpty then none else some (sign * (digitsToNat ds : Int))

/-- The `YYYY-MM-DD` literals accepted by `new Date(d + "T00:00:00.000Z")`:
four year digits, a two-digit month 01–12 and a two-digit day within that
month's length (Gregorian leap rule).  Any other literal makes the
constructor produce an Invalid Date, whose `toISOString()` throws a
`RangeError`. -/
def isValidDateLiteral (s : String) : Bool :=
  match s.data with
  | [y1, y2, y3, y4, '-', m1, m2, '-', d1, d2] =>
    if y1.isDigit && y2.isDigit && y3.isDigit && y4.isDigit &&
        m1.isDigit && m2.isDigit && d1.isDigit && d2.isDigit then
      let year := digitsToNat [y1.toNat - 48, y2.toNat - 48, y3.toNat - 48, y4.toNat - 48]
      let month := digitsToNat [m1.toNat - 48, m2.toNat - 48]
      let day := digitsToNat [d1.toNat - 48, d2.toNat - 48]
      let leap := (year % 4 == 0 && year % 100 != 0) || year % 400 == 0
      let maxDay :=
        if month == 2 then (if leap then 29 else 28)
        else if month == 4 || month == 6 || month == 9 || month == 11 then 30
        else 31
      decide (1 ≤ month) && decide (month ≤ 12) &&
        decide (1 ≤ day) && decide (day ≤ maxDay)
    else false
  | _ => false

/-- Model of `new Date(d + "T00:00:00.000Z").toISOString()` on the valid
literals (`isValidDateLiteral`): there the UTC-midnight instant round-trips
to the very string that was parsed, so the normalisation appends the
midnight suffix.  On an invalid literal the source instead throws a
`RangeError` while the request body is being built, so no body exists; that
throw path is outside this total model, and theorems drawing conclusions
from a built body therefore restrict their date inputs to valid literals. -/
def jsDateToISO (d : String) : String :=
  d ++ "T00:00:00.000Z"

/-- The `Job` record fetched from `GET /api/jobs`
(`src/frontend/components/JobsScreen.tsx`). -/
structure Job where
  id : String
  title : String
  job_type : String
  description : Option String
  hourly_rate : ℚ
  location_address : String
  location_city : String
  location_state : String
  location_zip : String
  job_date : String
  start_time : String
  end_time : String
  created_at : String
  applications_count : Nat
deriving DecidableEq

/-- The search predicate of `filterJobs`: a case-insensitive substring match
of the search text against the job's title, city or state. -/
def matchesSearch (searchText : String) (job : Job) : Bool :=
  hasSub (lowerChars searchText) (lowerChars job.title) ||
  hasSub (lowerChars searchText) (lowerChars job.location_city) ||
  hasSub (lowerChars searchText) (lowerChars job.location_state)

/-- `filterJobs` from `JobsScreen.tsx`: starting from the full list, apply
the text filter when `searchText` is truthy (non-empty), then the exact
job-type filter when `selectedJobType` is truthy. -/
def filterJobs (jobs : List Job) (searchText selectedJobType : String) : List Job :=
  let filtered := jobs
  let filtered :=
    if searchText ≠ "" then filtered.filter (fun job => matchesSearch searchText job)
    else filtered
  let filtered :=
    if selectedJobType ≠ "" then filtered.filter (fun job => job.job_type == selectedJobType)
    else filtered
  filtered

/-- Outcome of the `POST /api/jobs/{id}/apply` call: success, or a failure
carrying the optional server error detail. -/
inductive ApplyOutcome where
  | ok
  | err (detail : Option String)
deriving DecidableEq

/-- Generic failure alert text of `applyToJob`. -/
def applyFallback : String := "Failed to apply to job. Please try again."

/-- `applyToJob` from `JobsScreen.tsx`, as a transition on the `jobs` state:
on success the list is refetched (`fetchJobs`) and a success alert shown; on
failure the list is untouched and the alert shows the server detail with the
generic fallback.  Returns the new `jobs` state and the alert raised. -/
def applyToJob (jobs : List Job) (outcome : ApplyOutcome) (refetched : List Job) :
    List Job × Option (String × String) :=
  match outcome with
  | .ok => (refetched, some ("Success", "Your application has been submitted!"))
  | .err detail => (jobs, some ("Error", jsOrFallback detail applyFallback))

/- A concrete job used to instantiate the universally quantified theorems. -/
def job₀ : Job :=
  { id := "j1", title := "Hygienist AM", job_type := "dental_hygienist",
    description := none, hourly_rate := 55,
    location_address := "100 Main St", location_city := "Austin",
    location_state := "TX", location_zip := "78701",
    job_date := "2025-03-01", start_time := "09:00", end_time := "17:00",
    created_at := "2025-02-01", applications_count := 2 }

/-- Claim C1: for every job list `J`, search text `t` and category `c`,
`filterJobs J t c` is a sublist of `J` (subset, original relative order, no
outside element), and every element of the result satisfies both the
case-insensitive substring predicate on title/city/state and the exact
job-type predicate, with empty `t` and empty `c` each matching every job. -/
theorem filterJobs_spec (J : List Job) (t c : String) :
    List.Sublist (filterJobs J t c) J ∧
    ∀ job ∈ filterJobs J t c,
      (t = "" ∨ matchesSearch t job = true) ∧ (c = "" ∨ job.job_type = c) := by
  refine ⟨?_, ?_⟩
  · simp only [filterJobs]
    by_cases hc : c = ""
    · rw [if_neg (fun h => h hc)]
      by_cases ht : t = ""
      · rw [if_neg (fun h => h ht)]
      · rw [if_pos ht]
        exact List.filter_sublist J
    · rw [if_pos hc]
      by_cases ht : t = ""
      · rw [if_neg (fun h => h ht)]
        exact List.filter_sublist J
      · rw [if_pos ht]
        exact (List.filter_sublist _).trans (List.filter_sublist _)
  · intro job hmem
    simp only [filterJobs] at hmem
    by_cases hc : c = ""
    · rw [if_neg (fun h => h hc)] at hmem
      by_cases ht : t = ""
      · exact ⟨Or.inl ht, Or.inl hc⟩
      · rw [if_pos ht, List.mem_filter] at hmem
        exact ⟨Or.inr hmem.2, Or.inl hc⟩
    · rw [if_pos hc] at hmem
      by_cases ht : t = ""
      · rw [if_neg (fun h => h ht), List.mem_filter] at hmem
        exact ⟨Or.inl ht, Or.inr (by simpa using hmem.2)⟩
      · rw [if_pos ht, List.mem_filter, List.mem_filter] at hmem
        exact ⟨Or.inr hmem.1.2, Or.inr (by simpa using hmem.2)⟩

/- Witness for C1 at a concrete job list and filter pair. -/
theorem filterJobs_spec_witness :
    List.Sublist (filterJobs [job₀] "desk" "") [job₀] ∧
    (job₀ ∈ filterJobs [job₀] "" "dental_hygienist" →
      (("" : String) = "" ∨ matchesSearch "" job₀ = true) ∧
      (("dental_hygienist" : String) = "" ∨ job₀.job_type = "dental_hygienist")) :=
  ⟨(filterJobs_spec [job₀] "desk" "").1,
   fun hmem => (filterJobs_spec [job₀] "" "dental_hygienist").2 job₀ hmem⟩

/-- Claim C7: filtering with empty search text and the empty category
sentinel is the identity: `filterJobs J "" "" = J`. -/
theorem filterJobs_empty_id (J : List Job) : filterJobs J "" "" = J := by
  simp [filterJobs]

/-- Claim C6: a failed `POST /api/jobs/{id}/apply` leaves the `jobs` state —
including every job's `applications_count` — exactly as before the attempt,
and the alert shows the server-provided detail when present (non-empty),
else the generic fallback. -/
theorem applyToJob_failure_frame (jobs refetched : List Job) (detail : Option String) :
    (applyToJob jobs (.err detail) refetched).1 = jobs ∧
    ((applyToJob jobs (.err detail) refetched).1).map Job.applications_count =
      jobs.map Job.applications_count ∧
    (∀ d, detail = some d → d ≠ "" →
      (applyToJob jobs (.err detail) refetched).2 = some ("Error", d)) ∧
    (detail = none →
      (applyToJob jobs (.err detail) refetched).2 = some ("Error", applyFallback)) := by
  refine ⟨rfl, rfl, ?_, ?_⟩
  · intro d hd hne
    simp [applyToJob, jsOrFallback, hd, hne]
  · intro hd
    simp [applyToJob, jsOrFallback, hd]

/- Witness for C6: a simulated 400 with a server detail leaves the singleton
job list and its application counts untouched and surfaces the detail. -/
theorem applyToJob_failure_frame_witness :
    (applyToJob [job₀] (.err (some "Already applied")) []).1 = [job₀] ∧
    ((applyToJob [job₀] (.err (some "Already applied")) []).1).map Job.applications_count =
      [job₀].map Job.applications_count ∧
    (applyToJob [job₀] (.err (some "Already applied")) []).2 =
      some ("Error", "Already applied") := by
  have h := applyToJob_failure_frame [job₀] [] (some "Already applied")
  exact ⟨h.1, h.2.1, h.2.2.1 "Already applied" rfl (by decide)⟩

/-- The posting user's on-file office profile
(`src/frontend/app/components/JobPostingScreen.tsx`, `User`). -/
structure PostingUser where
  office_address : Option String
  office_city : Option String
  office_state : Option String
  office_zip : Option String
  office_latitude : Option ℚ
  office_longitude : Option ℚ
deriving DecidableEq

/-- `JobFormData`: the job-posting form record.  Text inputs are strings;
the optional recurrence fields are `Option`s (`none` models `undefined`). -/
structure JobFormData where
  title : String
  job_type : String
  description : String
  hourly_rate : String
  location_address : String
  location_city : String
  location_state : String
  location_zip : String
  job_date : String
  start_time : String
  end_time : String
  is_recurring : Bool
  recurring_pattern : Option String
  recurring_days : Option (List String)
  recurring_end_date : Option String
deriving DecidableEq

/-- The `useForm` `defaultValues` of `JobPostingScreen`: location fields
pre-populated from the posting user's office address (`|| ''`), recurrence
off, pattern `weekly`, empty weekday set; fields without a listed default
start unset (modelled as the empty string). -/
def formDefaultValues (user : PostingUser) : JobFormData :=
  { title := "", job_type := "", description := "", hourly_rate := "",
    location_address := user.office_address.getD "",
    location_city := user.office_city.getD "",
    location_state := user.office_state.getD "",
    location_zip := user.office_zip.getD "",
    job_date := "", start_time := "", end_time := "",
    is_recurring := false,
    recurring_pattern := some "weekly",
    recurring_days := some [],
    recurring_end_date := none }

/-- The request body `jobData` built by `onSubmit` for `POST /api/jobs`.
`hourly_rate` is the `parseFloat` result (`none` models `NaN`); `none` in an
`Option` field models a key serialised away as `undefined`. -/
structure JobData where
  title : String
  job_type : String
  description : String
  hourly_rate : Option ℚ
  location_address : String
  location_city : String
  location_state : String
  location_zip : String
  job_date : String
  start_time : String
  end_time : String
  is_recurring : Bool
  recurring_pattern : Option String
  recurring_days : Option (List String)
  recurring_end_date : Option String
  location_latitude : ℚ
  location_longitude : ℚ
deriving DecidableEq

/-- The `onSubmit` transform of `JobPostingScreen`: spread the whole form
record, then override `hourly_rate` with `parseFloat`, `job_date` with the
UTC-midnight ISO instant, the coordinates with the user's office coordinates
(`|| 0`), and `recurring_end_date` with its ISO form when truthy, else
`undefined`. -/
def buildJobData (user : PostingUser) (data : JobFormData) : JobData :=
  { title := data.title,
    job_type := data.job_type,
    description := data.description,
    hourly_rate := jsParseFloat data.hourly_rate,
    location_address := data.location_address,
    location_city := data.location_city,
    location_state := data.location_state,
    location_zip := data.location_zip,
    job_date := jsDateToISO data.job_date,
    start_time := data.start_time,
    end_time := data.end_time,
    is_recurring := data.is_recurring,
    recurring_pattern := data.recurring_pattern,
    recurring_days := data.recurring_days,
    recurring_end_date :=
      match data.recurring_end_date with
      | some d => if d = "" then none else some (jsDateToISO d)
      | none => none,
    location_latitude := user.office_latitude.getD 0,
    location_longitude := user.office_longitude.getD 0 }

/-- The react-hook-form rules attached to the `hourly_rate` Controller:
only `required` is set, so any non-empty text passes client-side validation
and submission proceeds. -/
def hourlyRateRulePasses (value : String) : Bool :=
  value ≠ ""

/-- The `required` rules declared by the job-posting form's Controllers —
title, job type, hourly rate, the four location fields, job date and the two
times (description and the recurrence fields declare none); `handleSubmit`
invokes `onSubmit` only when every rule passes, i.e. each required value is
non-empty. -/
def jobFormRulesPass (data : JobFormData) : Bool :=
  data.title ≠ "" && data.job_type ≠ "" && hourlyRateRulePasses data.hourly_rate &&
  data.location_address ≠ "" && data.location_city ≠ "" &&
  data.location_state ≠ "" && data.location_zip ≠ "" &&
  data.job_date ≠ "" && data.start_time ≠ "" && data.end_time ≠ ""

/- A posting user with no office profile on file. -/
def user₀ : PostingUser :=
  { office_address := none, office_city := none, office_state := none,
    office_zip := none, office_latitude := none, office_longitude := none }

/- The untouched default form with recurrence left off. -/
def form₀ : JobFormData := formDefaultValues user₀

/- A fully filled form: every required field non-empty, the job date a valid
literal, recurrence left switched off at its form defaults. -/
def formFilled : JobFormData :=
  { title := "Dental Hygienist Needed", job_type := "dental_hygienist",
    description := "", hourly_rate := "55",
    location_address := "100 Main St", location_city := "Austin",
    location_state := "TX", location_zip := "78701",
    job_date := "2025-03-01", start_time := "09:00", end_time := "17:00",
    is_recurring := false,
    recurring_pattern := some "weekly",
    recurring_days := some [],
    recurring_end_date := none }

/-- Claim C2 counterexample: a fully filled form that passes every
`required` rule (so `handleSubmit` runs `onSubmit`), whose job date is a
valid literal (so the body is built without throwing), and whose recurrence
switch is off, still yields a request body containing
`recurring_pattern = "weekly"` and `recurring_days = []`: the recurrence
sub-fields are not gated on `is_recurring`. -/
theorem jobData_recurrence_not_gated :
    jobFormRulesPass formFilled = true ∧
    isValidDateLiteral formFilled.job_date = true ∧
    formFilled.is_recurring = false ∧
    (buildJobData user₀ formFilled).recurring_pattern = some "weekly" ∧
    (buildJobData user₀ formFilled).recurring_days = some [] := by
  refine ⟨by decide, by decide, rfl, rfl, rfl⟩

/-- Claim C2 (amended): for every submitted form on which the transform runs
to completion — the job date a valid literal and any non-empty recurrence
end date a valid literal, so `toISOString` does not throw — the transform
spreads the whole form record: `recurring_pattern` and `recurring_days`
reach the request body unchanged regardless of `is_recurring` and of the
pattern, while `recurring_end_date` is present iff the form holds a
non-empty end-date text — also regardless of `is_recurring` — and is then
its UTC-midnight ISO instant. -/
theorem jobData_recurrence_passthrough (user : PostingUser) (data : JobFormData)
    (hdate : isValidDateLiteral data.job_date = true)
    (hend : ∀ d, data.recurring_end_date = some d → d ≠ "" →
      isValidDateLiteral d = true) :
    (buildJobData user data).recurring_pattern = data.recurring_pattern ∧
    (buildJobData user data).recurring_days = data.recurring_days ∧
    ((buildJobData user data).recurring_end_date ≠ none ↔
      ∃ d, data.recurring_end_date = some d ∧ d ≠ "") ∧
    (∀ d, data.recurring_end_date = some d → d ≠ "" →
      (buildJobData user data).recurring_end_date = some (jsDateToISO d)) := by
  refine ⟨rfl, rfl, ?_, ?_⟩
  · cases h : data.recurring_end_date with
    | none => simp [buildJobData, h]
    | some d => by_cases hd : d = "" <;> simp [buildJobData, h, hd]
  · intro d hd hne
    simp [buildJobData, hd, hne]

/- A form with recurrence enabled and a valid end date entered. -/
def formRec : JobFormData :=
  { formFilled with is_recurring := true, recurring_end_date := some "2025-06-30" }

/- Witness for the amended C2 at a concrete form, discharging both validity
hypotheses. -/
theorem jobData_recurrence_passthrough_witness :
    (buildJobData user₀ formRec).recurring_pattern = formRec.recurring_pattern ∧
    (buildJobData user₀ formRec).recurring_days = formRec.recurring_days ∧
    (buildJobData user₀ formRec).recurring_end_date = some (jsDateToISO "2025-06-30") := by
  have hend : ∀ d, formRec.recurring_end_date = some d → d ≠ "" →
      isValidDateLiteral d = true := by
    intro d hd hne
    have h : some "2025-06-30" = some d := hd
    cases h
    decide
  have h := jobData_recurrence_passthrough user₀ formRec (by decide) hend
  exact ⟨h.1, h.2.1, h.2.2.2 "2025-06-30" rfl (by decide)⟩

/-- Claim C3 (code bug in the source): the only client-side rule on
`hourly_rate` is `required`, so the non-numeric text "abc" passes validation,
`parseFloat` yields `NaN`, and the submit builds a request with
`hourly_rate = NaN` instead of blocking on a validation error. -/
theorem hourlyRate_parse_failure_not_blocked :
    hourlyRateRulePasses "abc" = true ∧
    jsParseFloat "abc" = none ∧
    (buildJobData user₀ { form₀ with hourly_rate := "abc" }).hourly_rate = none := by
  refine ⟨by decide, by decide, by decide⟩

/-- The auth form record (`AuthFormData` in the AuthScreen component):
email and password are always collected, the rest is optional
(`none` models `undefined`). -/
structure AuthFormData where
  email : String
  password : String
  confirmPassword : Option String
  first_name : Option String
  last_name : Option String
  phone : Option String
  role : Option String
  profession_type : Option String
  license_number : Option String
  experience_years : Option String
  dental_office_name : Option String
  office_address : Option String
  office_city : Option String
  office_state : Option String
  office_zip : Option String
deriving DecidableEq

/-- Body of `POST /api/auth/login`: exactly email and password. -/
structure LoginBody where
  email : String
  password : String
deriving DecidableEq

/-- Body of `POST /api/auth/register`: the whole form record spread, with
`role` overridden by the active portal and `experience_years` parsed when
truthy (outer `none` models `undefined`, inner `none` models `NaN`). -/
structure RegisterBody where
  email : String
  password : String
  confirmPassword : Option String
  first_name : Option String
  last_name : Option String
  phone : Option String
  role : String
  profession_type : Option String
  license_number : Option String
  experience_years : Option (Option Int)
  dental_office_name : Option String
  office_address : Option String
  office_city : Option String
  office_state : Option String
  office_zip : Option String
deriving DecidableEq

/-- The login request body built by `onSubmit` in login mode. -/
def loginBody (data : AuthFormData) : LoginBody :=
  { email := data.email, password := data.password }

/-- The register request body built by `onSubmit` in register mode. -/
def registerBody (activePortal : String) (data : AuthFormData) : RegisterBody :=
  { email := data.email,
    password := data.password,
    confirmPassword := data.confirmPassword,
    first_name := data.first_name,
    last_name := data.last_name,
    phone := data.phone,
    role := activePortal,
    profession_type := data.profession_type,
    license_number := data.license_number,
    experience_years :=
      match data.experience_years with
      | some s => if s = "" then none else some (jsParseInt s)
      | none => none,
    dental_office_name := data.dental_office_name,
    office_address := data.office_address,
    office_city := data.office_city,
    office_state := data.office_state,
    office_zip := data.office_zip }

/-- Response body of login/register with its optional `access_token`. -/
structure LoginResponse where
  access_token : Option String
deriving DecidableEq

/-- Outcome of an HTTP call: success with a body, or a caught error carrying
the optional `error.response?.data?.detail`. -/
inductive HttpOutcome (α : Type) where
  | ok (data : α)
  | err (detail : Option String)
deriving DecidableEq

/-- The network environment the auth submit runs against: the response of
the login/register POST, and the response of `GET /api/auth/me` as a
function of the Authorization header it is sent with. -/
structure AuthEnv where
  postOutcome : HttpOutcome LoginResponse
  meOutcome : String → HttpOutcome String

/-- A network request issued by the auth submit. -/
inductive AuthRequest where
  | postLogin (body : LoginBody)
  | postRegister (body : RegisterBody)
  | getMe (authHeader : String)
deriving DecidableEq

/-- The endpoint path of each request. -/
def AuthRequest.path : AuthRequest → String
  | .postLogin _ => "/api/auth/login"
  | .postRegister _ => "/api/auth/register"
  | .getMe _ => "/api/auth/me"

/-- The `Bearer ${token}` Authorization header. -/
def bearerHeader (token : String) : String :=
  "Bearer " ++ token

/-- Result of one run of the AuthScreen `onSubmit`: the requests issued in
order, the `onLogin` call (token and profile) if any, and the alert. -/
structure AuthOutcome where
  requests : List AuthRequest
  loggedIn : Option (String × String)
  alert : Option (String × String)
deriving DecidableEq

/-- Generic auth failure alert text. -/
def authFallback : String := "An error occurred. Please try again."

/-- `onSubmit` of the AuthScreen: in register mode a password/confirmation
mismatch aborts with a local alert before any request; otherwise the login
or register POST is issued, and when the response body has a truthy
`access_token` the profile is fetched from `/api/auth/me` with exactly that
token, `onLogin` running only when that fetch succeeds.  A success response
without a truthy token ends silently; a thrown request error alerts with the
server detail or the generic fallback. -/
def authOnSubmit (isLogin : Bool) (activePortal : String) (env : AuthEnv)
    (data : AuthFormData) : AuthOutcome :=
  if isLogin = false ∧ data.confirmPassword ≠ some data.password then
    { requests := [], loggedIn := none,
      alert := some ("Error", "Passwords do not match") }
  else
    let req : AuthRequest :=
      if isLogin then .postLogin (loginBody data)
      else .postRegister (registerBody activePortal data)
    match env.postOutcome with
    | .err detail =>
      { requests := [req], loggedIn := none,
        alert := some ("Error", jsOrFallback detail authFallback) }
    | .ok resp =>
      match resp.access_token with
      | none => { requests := [req], loggedIn := none, alert := none }
      | some tok =>
        if tok = "" then { requests := [req], loggedIn := none, alert := none }
        else
          match env.meOutcome (bearerHeader tok) with
          | .err detail =>
            { requests := [req, .getMe (bearerHeader tok)], loggedIn := none,
              alert := some ("Error", jsOrFallback detail authFallback) }
          | .ok userData =>
            { requests := [req, .getMe (bearerHeader tok)],
              loggedIn := some (tok, userData),
              alert := some ("Success",
                if isLogin then "Welcome back!"
                else "Account created successfully!") }

/- Concrete data and environments instantiating the auth theorems. -/
def registerData₀ : AuthFormData :=
  { email := "pro@example.com", password := "abc123", confirmPassword := some "abc124",
    first_name := some "Ann", last_name := some "Lee", phone := none,
    role := none, profession_type := some "dentist", license_number := none,
    experience_years := none, dental_office_name := none, office_address := none,
    office_city := none, office_state := none, office_zip := none }

def registerDataOk : AuthFormData :=
  { registerData₀ with confirmPassword := some "abc123" }

def loginData₀ : AuthFormData :=
  { email := "pro@example.com", password := "abc123", confirmPassword := none,
    first_name := none, last_name := none, phone := none, role := none,
    profession_type := none, license_number := none, experience_years := none,
    dental_office_name := none, office_address := none, office_city := none,
    office_state := none, office_zip := none }

def envAny : AuthEnv :=
  { postOutcome := .ok { access_token := some "tok123" },
    meOutcome := fun _ => .ok "user-profile" }

def envMeFails : AuthEnv :=
  { postOutcome := .ok { access_token := some "tok123" },
    meOutcome := fun _ => .err (some "Could not validate credentials") }

def envNoToken : AuthEnv :=
  { postOutcome := .ok { access_token := none },
    meOutcome := fun _ => .ok "user-profile" }

/-- Claim C4: in register mode, a password/confirmation mismatch issues no
network request and raises only the local mismatch alert. -/
theorem auth_mismatch_blocks (activePortal : String) (env : AuthEnv)
    (data : AuthFormData) (hmis : data.confirmPassword ≠ some data.password) :
    authOnSubmit false activePortal env data =
      { requests := [], loggedIn := none,
        alert := some ("Error", "Passwords do not match") } := by
  simp [authOnSubmit, hmis]

/- Witness for C4: password "abc123" with confirmation "abc124" never
reaches the network. -/
theorem auth_mismatch_blocks_witness :
    authOnSubmit false "professional" envAny registerData₀ =
      { requests := [], loggedIn := none,
        alert := some ("Error", "Passwords do not match") } :=
  auth_mismatch_blocks "professional" envAny registerData₀ (by decide)

/-- Claim C5: when the POST succeeds with a truthy token and the mismatch
guard does not fire, `/api/auth/me` is requested with exactly
`Bearer <token>`; the session is established only if that call succeeds, and
when it fails `onLogin` is never called even though the token was
obtained. -/
theorem auth_two_step (isLogin : Bool) (activePortal : String) (env : AuthEnv)
    (data : AuthFormData) (resp : LoginResponse) (tok : String)
    (hguard : isLogin = true ∨ data.confirmPassword = some data.password)
    (hpost : env.postOutcome = .ok resp)
    (htok : resp.access_token = some tok) (hne : tok ≠ "") :
    AuthRequest.getMe (bearerHeader tok) ∈
      (authOnSubmit isLogin activePortal env data).requests ∧
    (∀ d, env.meOutcome (bearerHeader tok) = .err d →
      (authOnSubmit isLogin activePortal env data).loggedIn = none) ∧
    (∀ t u, (authOnSubmit isLogin activePortal env data).loggedIn = some (t, u) →
      t = tok ∧ env.meOutcome (bearerHeader tok) = .ok u) := by
  have hguard' : ¬ (isLogin = false ∧ data.confirmPassword ≠ some data.password) := by
    rcases hguard with h | h <;> simp [h]
  cases hme : env.meOutcome (bearerHeader tok) with
  | err d' =>
    refine ⟨?_, ?_, ?_⟩ <;> simp [authOnSubmit, hguard', hpost, htok, hne, hme]
  | ok u' =>
    refine ⟨?_, ?_, ?_⟩ <;> simp [authOnSubmit, hguard', hpost, htok, hne, hme]

/- Witness for C5: a failing `/auth/me` leaves the session unestablished
while the token-bearing request was made with the exact header. -/
theorem auth_two_step_witness :
    AuthRequest.getMe (bearerHeader "tok123") ∈
      (authOnSubmit true "professional" envMeFails loginData₀).requests ∧
    (authOnSubmit true "professional" envMeFails loginData₀).loggedIn = none := by
  have h := auth_two_step true "professional" envMeFails loginData₀
    { access_token := some "tok123" } "tok123" (Or.inl rfl) rfl rfl (by decide)
  exact ⟨h.1, h.2.1 (some "Could not validate credentials") rfl⟩

/-- Claim C8 (implicit): a successful login/register response whose body has
no `access_token` ends the submit silently: only the POST request is made —
no `/api/auth/me` call — no session is established and no alert is shown. -/
theorem auth_missing_token_silent (isLogin : Bool) (activePortal : String)
    (env : AuthEnv) (data : AuthFormData)
    (hguard : isLogin = true ∨ data.confirmPassword = some data.password)
    (hpost : env.postOutcome = .ok { access_token := none }) :
    authOnSubmit isLogin activePortal env data =
      { requests := [if isLogin then .postLogin (loginBody data)
                     else .postRegister (registerBody activePortal data)],
        loggedIn := none, alert := none } ∧
    ∀ h, AuthRequest.getMe h ∉ (authOnSubmit isLogin activePortal env data).requests := by
  have hguard' : ¬ (isLogin = false ∧ data.confirmPassword ≠ some data.password) := by
    rcases hguard with h | h <;> simp [h]
  have heq : authOnSubmit isLogin activePortal env data =
      { requests := [if isLogin then .postLogin (loginBody data)
                     else .postRegister (registerBody activePortal data)],
        loggedIn := none, alert := none } := by
    simp [authOnSubmit, hguard', hpost]
  refine ⟨heq, ?_⟩
  intro h
  rw [heq]
  cases isLogin <;> simp

/- Witness for C8 at a concrete environment whose response lacks the
token. -/
theorem auth_missing_token_silent_witness :
    authOnSubmit true "professional" envNoToken loginData₀ =
      { requests := [.postLogin (loginBody loginData₀)],
        loggedIn := none, alert := none } := by
  have h := auth_missing_token_silent true "professional" envNoToken loginData₀
    (Or.inl rfl) rfl
  simpa using h.1

/-- Claim C9 (implicit): a registration that passes the mismatch check sends
the whole form record — `confirmPassword` included — as the body of
`POST /api/auth/register`. -/
theorem register_body_keeps_confirmPassword (activePortal : String) (env : AuthEnv)
    (data : AuthFormData) (hmatch : data.confirmPassword = some data.password) :
    (authOnSubmit false activePortal env data).requests.head? =
      some (.postRegister (registerBody activePortal data)) ∧
    (registerBody activePortal data).confirmPassword = some data.password := by
  refine ⟨?_, by simp [registerBody, hmatch]⟩
  cases hpost : env.postOutcome with
  | err d => simp [authOnSubmit, hmatch, hpost]
  | ok resp =>
    cases htok : resp.access_token with
    | none => simp [authOnSubmit, hmatch, hpost, htok]
    | some tok =>
      by_cases hne : tok = ""
      · simp [authOnSubmit, hmatch, hpost, htok, hne]
      · cases hme : env.meOutcome (bearerHeader tok) with
        | err d => simp [authOnSubmit, hmatch, hpost, htok, hne, hme]
        | ok u => simp [authOnSubmit, hmatch, hpost, htok, hne, hme]

/- Witness for C9: matching passwords put the confirmation value in the
register body. -/
theorem register_body_keeps_confirmPassword_witness :
    (authOnSubmit false "professional" envAny registerDataOk).requests.head? =
      some (.postRegister (registerBody "professional" registerDataOk)) ∧
    (registerBody "professional" registerDataOk).confirmPassword = some "abc123" := by
  have h := register_body_keeps_confirmPassword "professional" envAny registerDataOk
    (by decide)
  exact ⟨h.1, h.2⟩

/-- The two device-persisted keys of the root component. -/
structure Storage where
  access_token : Option String
  user_data : Option String
deriving DecidableEq

/-- The root `Index` component's session state. -/
structure RootState where
  user : Option String
  isAuthenticated : Bool
  loading : Bool
deriving DecidableEq

/-- `checkAuthStatus` from the root component, run at cold start from
`{user := none, isAuthenticated := false, loading := true}`: read both keys,
and only when both are truthy parse the cached profile and mark the session
authenticated.  `parseUser` models `JSON.parse` (`none` is a thrown parse
error, caught by the handler); the `finally` block always ends `loading`
false, and storage is never written. -/
def checkAuthStatus (parseUser : String → Option String) (storage : Storage) :
    Storage × RootState :=
  if jsTruthyOpt storage.access_token && jsTruthyOpt storage.user_data then
    match parseUser (storage.user_data.getD "") with
    | some u => (storage, { user := some u, isAuthenticated := true, loading := false })
    | none => (storage, { user := none, isAuthenticated := false, loading := false })
  else
    (storage, { user := none, isAuthenticated := false, loading := false })

/-- Claim C10: cold-start session restore authenticates only when both
persisted keys are present (truthy); with either key missing the session
stays unauthenticated and storage — hence the other key — is untouched, and
`loading` ends false in every case, parse errors included. -/
theorem checkAuthStatus_spec (parseUser : String → Option String) (storage : Storage) :
    (checkAuthStatus parseUser storage).1 = storage ∧
    (checkAuthStatus parseUser storage).2.loading = false ∧
    ((checkAuthStatus parseUser storage).2.isAuthenticated = true →
      jsTruthyOpt storage.access_token = true ∧ jsTruthyOpt storage.user_data = true) ∧
    (storage.access_token = none ∨ storage.user_data = none →
      (checkAuthStatus parseUser storage).2.isAuthenticated = false) := by
  by_cases hb : (jsTruthyOpt storage.access_token && jsTruthyOpt storage.user_data) = true
  · cases hp : parseUser (storage.user_data.getD "") with
    | none =>
      refine ⟨by simp [checkAuthStatus, hb, hp], by simp [checkAuthStatus, hb, hp],
        ?_, ?_⟩
      · intro h
        simp [checkAuthStatus, hb, hp] at h
      · intro _
        simp [checkAuthStatus, hb, hp]
    | some u =>
      refine ⟨by simp [checkAuthStatus, hb, hp], by simp [checkAuthStatus, hb, hp],
        ?_, ?_⟩
      · intro _
        exact Bool.and_eq_true_iff.mp hb
      · intro h
        rcases h with h | h <;> rw [h] at hb <;> simp [jsTruthyOpt] at hb
  · refine ⟨by simp [checkAuthStatus, hb], by simp [checkAuthStatus, hb], ?_, ?_⟩
    · intro h
      simp [checkAuthStatus, hb] at h
    · intro _
      simp [checkAuthStatus, hb]

/- Witness for C10: a stored token with no cached profile stays
unauthenticated, leaves storage untouched and ends loading. -/
theorem checkAuthStatus_spec_witness :
    (checkAuthStatus some { access_token := some "tok123", user_data := none }).1 =
      { access_token := some "tok123", user_data := none } ∧
    (checkAuthStatus some { access_token := some "tok123", user_data := none }).2.loading
      = false ∧
    (checkAuthStatus some
        { access_token := some "tok123", user_data := none }).2.isAuthenticated = false := by
  have h := checkAuthStatus_spec some { access_token := some "tok123", user_data := none }
  exact ⟨h.1, h.2.1, h.2.2.2 (Or.inr rfl)⟩
